import Mathlib

/-!
# QR phishing-risk scoring: verification of the Risk Scoring Engine spec

A shallow embedding of the scoring pipeline of the QR phishing-detector
repository.  The repository ships the frontend components (`LiveScanner`,
`UrlInput`/`RiskGauge`, `ResultsCard`, the `Index` page) and the backend's
README; the backend Score Fusion Engine and Certificate Validator themselves
are not among the shipped sources, so those parts are modelled from the
specification (each such definition says so in its doc comment).  Frontend
behaviour (debounced live scanning, fetch error handling, SSL display) is
embedded directly from the TypeScript sources.
-/

namespace QRPhish

/-- The three-tier verdict (`risk_level` in the JSON contract). -/
inductive RiskLevel
  | SAFE
  | SUSPICIOUS
  | DANGEROUS
deriving DecidableEq, Repr

/-- Modelled from the spec: the Signal set handed to the Score Fusion Engine
(spec §3).  One entry per contributing factor — domain age, SSL, keyword and
URL-flag hits, ML probability, CV probability — where `none` marks a signal
that could not be evaluated (`unknown`), distinct from a confirmed-negative
value.  The backend module that builds this record is not among the shipped
sources. -/
structure Signals where
  domain_age_days : Option Int
  ssl_valid : Option Bool
  suspicious_keywords : List String
  url_flags : List String
  ml_phishing_probability : Option ℚ
  cv_malicious_probability : Option ℚ
deriving DecidableEq, Repr

/-- Maximum points contributed by the ML phishing probability (spec §4.7:
"ML probability contributes up to 50 points"). -/
def mlMaxPoints : ℚ := 50

/-- Modelled from the spec: uncertainty penalty when the ML probability signal
is marked unknown — a partial penalty smaller than a confirmed-bad signal
(spec §4.7), set to half the ML maximum. -/
def mlUnknownPoints : ℚ := 25

/-- Fixed per-hit increment for suspicious keywords and URL flags
(spec §4.7: "each suspicious keyword/url flag contributes a fixed
increment capped at 30 total"). -/
def keywordIncrement : ℚ := 5

/-- Cap on total keyword/flag points (spec §4.7). -/
def keywordCap : ℚ := 30

/-- Points for a registration younger than the young-domain threshold
(spec §4.7: "domain age < 90 days contributes up to 10"). -/
def agePoints : ℚ := 10

/-- Young-domain threshold in days (spec §4.7). -/
def youngAgeDays : Int := 90

/-- Modelled from the spec: uncertainty penalty for an unknown domain age,
smaller than the confirmed-bad penalty (spec §4.7). -/
def ageUnknownPoints : ℚ := 5

/-- Points for an explicitly invalid certificate (spec §4.7:
"invalid/unknown SSL contributes up to 10"). -/
def sslInvalidPoints : ℚ := 10

/-- Modelled from the spec: uncertainty penalty for an unknown SSL state,
smaller than the confirmed-bad penalty (spec §4.7). -/
def sslUnknownPoints : ℚ := 5

/-- The fixed CV blend weight (spec §4.7: "`cv_weight` a fixed configurable
constant (e.g., 0.35)"). -/
def cvWeight : ℚ := 7 / 20

/-- Modelled from the spec: ML probability contribution to the URL score
(spec §4.7 step 1); an unknown ML signal incurs the partial uncertainty
penalty instead of the full confirmed-bad weight. -/
def mlContribution (s : Signals) : ℚ :=
  match s.ml_phishing_probability with
  | some p => p * mlMaxPoints
  | none => mlUnknownPoints

/-- Number of suspicious-keyword and URL-flag hits. -/
def hitCount (s : Signals) : Nat :=
  s.suspicious_keywords.length + s.url_flags.length

/-- Modelled from the spec: keyword/flag contribution — a fixed increment per
hit, capped at 30 total (spec §4.7 step 1). -/
def keywordContribution (s : Signals) : ℚ :=
  min (keywordIncrement * (hitCount s : ℚ)) keywordCap

/-- Modelled from the spec: SSL contribution — full penalty for a confirmed
invalid certificate, a smaller uncertainty penalty when the state is unknown,
nothing when valid (spec §4.4, §4.7 step 1). -/
def sslContribution (s : Signals) : ℚ :=
  match s.ssl_valid with
  | some true => 0
  | some false => sslInvalidPoints
  | none => sslUnknownPoints

/-- Modelled from the spec: domain-age contribution — full penalty for a
young domain, a smaller uncertainty penalty when the age is unknown
(spec §4.3, §4.7 step 1). -/
def ageContribution (s : Signals) : ℚ :=
  match s.domain_age_days with
  | some d => if d < youngAgeDays then agePoints else 0
  | none => ageUnknownPoints

/-- Modelled from the spec: the URL-only score in [0,100] (spec §4.7 step 1),
a weighted sum of the ML, keyword/flag, SSL and domain-age contributions. -/
def urlScore (s : Signals) : ℚ :=
  mlContribution s + keywordContribution s + sslContribution s + ageContribution s

/-- Modelled from the spec: the pre-rounding fused score (spec §4.7 step 2).
With a CV probability available the URL score and the CV probability are
blended by `cvWeight`; when the Visual Provider is unavailable the CV term is
excluded entirely and the fused score is the URL score itself. -/
def fusedScoreQ (s : Signals) : ℚ :=
  match s.cv_malicious_probability with
  | some c => (1 - cvWeight) * urlScore s + cvWeight * (c * 100)
  | none => urlScore s

/-- Round-half-up to the nearest integer (spec §4.7 step 3). -/
def roundHalfUp (q : ℚ) : ℤ :=
  ⌊q + 1 / 2⌋

/-- Clamp an integer score to [0,100] (spec §4.7 step 3). -/
def clampScore (n : ℤ) : ℤ :=
  max 0 (min 100 n)

/-- Modelled from the spec: the final integer risk score (spec §4.7 steps
1–3): fuse, round half-up, clamp to [0,100]. -/
def riskScore (s : Signals) : ℤ :=
  clampScore (roundHalfUp (fusedScoreQ s))

/-- Modelled from the spec: map a final score to the three-tier level
(spec §4.7 step 4, default thresholds 39/69). -/
def riskLevelOf (n : ℤ) : RiskLevel :=
  if n ≤ 39 then .SAFE
  else if n ≤ 69 then .SUSPICIOUS
  else .DANGEROUS

/-- The five signal categories feeding fusion (spec §3). -/
inductive SignalCategory
  | ml
  | cv
  | keywords
  | ssl
  | age
deriving DecidableEq, Repr

/-- Fixed tie-break priority among signal categories (spec §4.7 step 5:
"ML > CV > keywords/flags > SSL > domain age"); smaller means higher
priority. -/
def categoryPriority : SignalCategory → Nat
  | .ml => 0
  | .cv => 1
  | .keywords => 2
  | .ssl => 3
  | .age => 4

/-- Modelled from the spec: the point contribution of one signal category to
the final (pre-rounding) fused score.  When a CV probability is present the
URL-side categories are scaled by `1 - cvWeight` and the CV category
contributes `cvWeight * (cv * 100)`; when the Visual Provider is unavailable
the CV category is excluded (zero weight) and URL-side categories contribute
their raw points (spec §4.7 steps 1–2). -/
def contribution (s : Signals) (c : SignalCategory) : ℚ :=
  let scale : ℚ :=
    match s.cv_malicious_probability with
    | some _ => 1 - cvWeight
    | none => 1
  match c with
  | .ml => scale * mlContribution s
  | .keywords => scale * keywordContribution s
  | .ssl => scale * sslContribution s
  | .age => scale * ageContribution s
  | .cv =>
    match s.cv_malicious_probability with
    | some p => cvWeight * (p * 100)
    | none => 0

/-- Modelled from the spec: the human-readable sentence attached to one
signal category (spec §4.7 step 5, §7: unknown signals are reported with an
explicit "could not verify" phrasing, never conflated with confirmed-bad). -/
def sentence (s : Signals) (c : SignalCategory) : String :=
  match c with
  | .ml =>
    match s.ml_phishing_probability with
    | some _ => "ML model flags a phishing probability for this URL"
    | none => "Could not obtain an ML phishing probability"
  | .cv =>
    match s.cv_malicious_probability with
    | some _ => "CV model flags the QR image as possibly malicious"
    | none => "CV signal unavailable"
  | .keywords => "Suspicious keywords or URL patterns detected"
  | .ssl =>
    match s.ssl_valid with
    | some true => "SSL certificate is valid"
    | some false => "SSL certificate is invalid"
    | none => "Could not verify the SSL certificate"
  | .age =>
    match s.domain_age_days with
    | some _ => "Domain was registered recently"
    | none => "Could not verify the domain age"

/-- One entry of the reasons list before rendering: its category, its
absolute point contribution, and its sentence. -/
structure ReasonEntry where
  cat : SignalCategory
  points : ℚ
  text : String
deriving DecidableEq, Repr

/-- Ordering of reason entries (spec §4.7 step 5): larger absolute point
contribution first, ties broken by the fixed category priority. -/
def reasonLE (a b : ReasonEntry) : Prop :=
  b.points < a.points ∨ (a.points = b.points ∧ categoryPriority a.cat ≤ categoryPriority b.cat)

instance : DecidableRel reasonLE := fun a b => by
  unfold reasonLE
  infer_instance

instance reasonLE_total : IsTotal ReasonEntry reasonLE := by
  constructor
  intro a b
  rcases lt_trichotomy a.points b.points with h | h | h
  · exact Or.inr (Or.inl h)
  · rcases Nat.le_total (categoryPriority a.cat) (categoryPriority b.cat) with hp | hp
    · exact Or.inl (Or.inr ⟨h, hp⟩)
    · exact Or.inr (Or.inr ⟨h.symm, hp⟩)
  · exact Or.inl (Or.inl h)

instance reasonLE_trans : IsTrans ReasonEntry reasonLE := by
  constructor
  intro a b c hab hbc
  rcases hab with h1 | ⟨h1, p1⟩ <;> rcases hbc with h2 | ⟨h2, p2⟩
  · exact Or.inl (h2.trans h1)
  · exact Or.inl (h2 ▸ h1)
  · exact Or.inl (h1 ▸ h2)
  · exact Or.inr ⟨h1.trans h2, p1.trans p2⟩

/-- The five categories in their fixed enumeration order. -/
def allCategories : List SignalCategory :=
  [.ml, .cv, .keywords, .ssl, .age]

/-- Modelled from the spec: the unsorted reason entries — one per signal
category with a non-zero point contribution (spec §4.7 step 5). -/
def reasonEntries (s : Signals) : List ReasonEntry :=
  (allCategories.filter fun c => decide (contribution s c ≠ 0)).map
    fun c => ⟨c, |contribution s c|, sentence s c⟩

/-- Modelled from the spec: the reason entries sorted most-influential first
(spec §4.7 step 5). -/
def sortedReasonEntries (s : Signals) : List ReasonEntry :=
  List.insertionSort reasonLE (reasonEntries s)

/-- Modelled from the spec: the rendered `reasons` sequence. -/
def reasons (s : Signals) : List String :=
  (sortedReasonEntries s).map ReasonEntry.text

/-- The `AnalysisResult` payload (spec §3, §6; the frontend `ResultsCard`
interface in the shipped sources mirrors it field by field). -/
structure AnalysisResult where
  risk_score : ℤ
  risk_level : RiskLevel
  domain_age_days : Option Int
  ssl_valid : Option Bool
  suspicious_keywords : List String
  url_flags : List String
  ml_phishing_probability : Option ℚ
  cv_malicious_probability : Option ℚ
  reasons : List String
deriving DecidableEq, Repr

/-- Modelled from the spec: the Score Fusion Engine (spec §4.7) — a total
function from the collected Signals to the final result. -/
def fuse (s : Signals) : AnalysisResult :=
  { risk_score := riskScore s
    risk_level := riskLevelOf (riskScore s)
    domain_age_days := s.domain_age_days
    ssl_valid := s.ssl_valid
    suspicious_keywords := s.suspicious_keywords
    url_flags := s.url_flags
    ml_phishing_probability := s.ml_phishing_probability
    cv_malicious_probability := s.cv_malicious_probability
    reasons := reasons s }

/-- The all-unknown Signal set: no domain age, no SSL state, no keyword or
URL-flag hits, no ML probability, no CV probability (spec §4.7 failure
semantics). -/
def allUnknownSignals : Signals :=
  { domain_age_days := none
    ssl_valid := none
    suspicious_keywords := []
    url_flags := []
    ml_phishing_probability := none
    cv_malicious_probability := none }

/-!
## Certificate Validator (spec §4.4)

The backend validator module is not among the shipped sources; its outcome
space and return value are modelled from the spec.  The downstream display
functions below are embedded from the shipped `ResultsCard` sources.
-/

/-- Modelled from the spec: the possible outcomes of the TLS probe the
Certificate Validator performs (spec §4.4): a completed handshake with the
three checks it runs (trusted chain, expiry, hostname match), or a
connection failure, a timeout, or a non-HTTPS scheme. -/
inductive TlsOutcome
  | handshake (chainTrusted : Bool) (notExpired : Bool) (hostnameMatches : Bool)
  | connectionFailure
  | timeout
  | nonHttpsScheme
deriving DecidableEq, Repr

/-- Modelled from the spec: `validate(host) -> ssl_valid: bool|null`
(spec §4.4).  `false` only on an explicit validation failure; `null` on
connection failure, timeout, or non-HTTPS scheme. -/
def validate : TlsOutcome → Option Bool
  | .handshake t e h => if t && e && h then some true else some false
  | .connectionFailure => none
  | .timeout => none
  | .nonHttpsScheme => none

/-- SSL cell value in the current `ResultsCard`
(src/unnamed/part_000 line 104): three distinct renderings. -/
def sslDisplayValue : Option Bool → String
  | some true => "Valid"
  | some false => "Invalid"
  | none => "Unknown"

/-- SSL cell status in the current `ResultsCard`
(src/unnamed/part_000 line 105): three distinct statuses. -/
def sslDisplayStatus : Option Bool → String
  | some true => "ok"
  | some false => "bad"
  | none => "warn"

/-- SSL cell value in the legacy `ResultsCard` variant
(src/unnamed/part_000 line 265): `result.ssl_valid ? "Valid" : "Invalid"`.
A `null` received at runtime is falsy in JavaScript, so it renders exactly
like `false`. -/
def legacySslDisplayValue (ssl : Option Bool) : String :=
  if ssl = some true then "Valid" else "Invalid"

/-- SSL cell status in the legacy `ResultsCard` variant
(src/unnamed/part_000 line 266): `result.ssl_valid ? "ok" : "bad"`. -/
def legacySslDisplayStatus (ssl : Option Bool) : String :=
  if ssl = some true then "ok" else "bad"

/-!
## Live scanner debounce (src/frontend/src/components/LiveScanner.tsx)

`handleQrDetected` keeps two refs: `lastSentUrlRef` (the URL last handed to
`onUrlDetected`, updated inside the timeout callback) and `debounceRef` (the
pending 500 ms timer).  A decode equal to `lastSentUrlRef.current` returns
immediately; any other decode clears the pending timer and schedules a fresh
500 ms one carrying the decoded text.  We embed this as a state machine over
abstract events: `decode t` is one frame decode, `fire` is the expiry of the
currently pending (uncancelled) 500 ms timer.
-/

/-- The scanner's dispatch-relevant state: the last URL actually sent, and
the URL carried by the pending debounce timer (if one is pending). -/
structure ScannerState where
  lastSent : Option String
  pending : Option String
deriving DecidableEq, Repr

/-- Scanner state before any decode (`lastSentUrlRef.current = null`, no
timer). -/
def initialScannerState : ScannerState :=
  { lastSent := none, pending := none }

/-- An abstract event of the live scanner: a frame decode, or the expiry of
the pending debounce timer. -/
inductive ScanEvent
  | decode (text : String)
  | fire
deriving DecidableEq, Repr

/-- One step of `handleQrDetected` / its timeout callback
(LiveScanner.tsx lines 243–271).  Returns the new state and the request
dispatched by this event, if any.  A decode equal to `lastSent` returns
early; any other decode cancels the pending timer and schedules a new one
with its own text; a timer expiry sends the pending text and records it in
`lastSent`. -/
def scanStep (st : ScannerState) : ScanEvent → ScannerState × Option String
  | .decode t =>
    if some t = st.lastSent then (st, none)
    else ({ st with pending := some t }, none)
  | .fire =>
    match st.pending with
    | some t => ({ lastSent := some t, pending := none }, some t)
    | none => (st, none)

/-- Run the scanner over a list of events, collecting the dispatched
requests in order. -/
def scanRun (st : ScannerState) : List ScanEvent → ScannerState × List String
  | [] => (st, [])
  | e :: evs =>
    ((scanRun (scanStep st e).1 evs).1,
      (scanStep st e).2.toList ++ (scanRun (scanStep st e).1 evs).2)

/-- The requests dispatched by an event trace started from the initial
scanner state. -/
def scanRequests (evs : List ScanEvent) : List String :=
  (scanRun initialScannerState evs).2

/-- The literal reading of "dispatched only after a debounce window with no
newer decode": walking the trace, every dispatch must carry exactly the text
of the most recent decode event before it.  Tracks
(lastSent, pending, lastDecoded). -/
def strictWindowOK : Option String → Option String → Option String → List ScanEvent → Bool
  | _, _, _, [] => true
  | ls, pd, _, .decode t :: evs =>
    if some t = ls then strictWindowOK ls pd (some t) evs
    else strictWindowOK ls (some t) (some t) evs
  | ls, pd, ld, .fire :: evs =>
    match pd with
    | some t => decide (ld = some t) && strictWindowOK (some t) none ld evs
    | none => strictWindowOK ls pd ld evs

/-- The corrected reading: every dispatch carries exactly the text of the
most recent *guarded* decode — a decode whose text differed from the
then-current `lastSent` (decodes equal to the last sent URL are ignored and
neither reset nor cancel the window).  Tracks
(lastSent, pending, lastGuardedDecode). -/
def guardedWindowOK : Option String → Option String → Option String → List ScanEvent → Bool
  | _, _, _, [] => true
  | ls, pd, lg, .decode t :: evs =>
    if some t = ls then guardedWindowOK ls pd lg evs
    else guardedWindowOK ls (some t) (some t) evs
  | ls, pd, lg, .fire :: evs =>
    match pd with
    | some t => decide (lg = some t) && guardedWindowOK (some t) none lg evs
    | none => guardedWindowOK ls pd lg evs

/-!
## Index page fetch handlers (src/unnamed/part_002)

`analyzeUrl` and `analyzeQr` set `isAnalyzing`, clear `result` and `error`,
run a fetch, and on any non-OK status, network failure, or JSON-parse
failure land in a single `catch` that sets one fixed error string; `finally`
resets `isAnalyzing`.  We embed each handler as a function of the prior page
state and the outcome of its fetch.
-/

/-- The page result shape of the `Index` page's `AnalysisResult` interface
(src/unnamed/part_002 lines 12–22); `ssl_valid` is typed plain `boolean`
there. -/
structure PageResult where
  risk_score : ℤ
  risk_level : RiskLevel
  verdict_color : String
  domain_age_days : Option Int
  ssl_valid : Bool
  suspicious_keywords : List String
  url_flags : List String
  ml_phishing_probability : ℚ
  reasons : List String
deriving DecidableEq, Repr

/-- The `Index` page's state hooks (src/unnamed/part_002 lines 25–28). -/
structure PageState where
  isAnalyzing : Bool
  result : Option PageResult
  error : Option String
  lastAnalyzedUrl : Option String
deriving DecidableEq, Repr

/-- How one fetch round-trip can end: parsed OK data, a non-OK HTTP status,
a network failure, or a JSON parse failure. -/
inductive FetchOutcome
  | ok (data : PageResult)
  | httpError
  | networkError
  | parseError
deriving DecidableEq, Repr

/-- The fixed message set by the `catch` arm of both handlers
(src/unnamed/part_002 lines 45 and 66). -/
def connectErrorMessage : String :=
  "Could not connect to the analysis server. Make sure your backend is running."

/-- `analyzeUrl` (src/unnamed/part_002 lines 30–49): clears result and
error, records the URL, and ends with exactly one of result/error set; every
failure kind lands in the same `catch`; `finally` resets `isAnalyzing`. -/
def analyzeUrl (_st : PageState) (url : String) (outcome : FetchOutcome) : PageState :=
  match outcome with
  | .ok data =>
    { isAnalyzing := false, result := some data, error := none, lastAnalyzedUrl := some url }
  | _ =>
    { isAnalyzing := false, result := none, error := some connectErrorMessage
      lastAnalyzedUrl := some url }

/-- `analyzeQr` (src/unnamed/part_002 lines 51–70): same shape, but does not
touch `lastAnalyzedUrl`. -/
def analyzeQr (st : PageState) (outcome : FetchOutcome) : PageState :=
  match outcome with
  | .ok data =>
    { st with isAnalyzing := false, result := some data, error := none }
  | _ =>
    { st with isAnalyzing := false, result := none, error := some connectErrorMessage }

/-- A quiescent page state, used to instantiate theorems at a concrete
input. -/
def pageState0 : PageState :=
  { isAnalyzing := false, result := none, error := none, lastAnalyzedUrl := none }

/-- A concrete Signal set with every URL-side signal confirmed bad and no CV
probability, used to instantiate theorems. -/
def cvAbsentExample : Signals :=
  { domain_age_days := some 10
    ssl_valid := some false
    suspicious_keywords := ["login"]
    url_flags := []
    ml_phishing_probability := some 1
    cv_malicious_probability := none }

/-- The same Signal set with a CV probability of 1 attached. -/
def cvPresentExample : Signals :=
  { cvAbsentExample with cv_malicious_probability := some 1 }

/-!
## Helper lemmas
-/

theorem riskScore_bounds (s : Signals) : 0 ≤ riskScore s ∧ riskScore s ≤ 100 :=
  ⟨le_max_left 0 _, max_le (by norm_num) (min_le_left _ _)⟩

theorem roundHalfUp_mono {a b : ℚ} (h : a ≤ b) : roundHalfUp a ≤ roundHalfUp b :=
  Int.floor_le_floor (by linarith)

theorem clampScore_mono {a b : ℤ} (h : a ≤ b) : clampScore a ≤ clampScore b :=
  max_le_max le_rfl (min_le_min le_rfl h)

theorem riskScore_mono {a b : Signals} (h : fusedScoreQ a ≤ fusedScoreQ b) :
    riskScore a ≤ riskScore b :=
  clampScore_mono (roundHalfUp_mono h)

theorem fusedScoreQ_mono_url {a b : Signals}
    (hcv : a.cv_malicious_probability = b.cv_malicious_probability)
    (h : urlScore a ≤ urlScore b) : fusedScoreQ a ≤ fusedScoreQ b := by
  unfold fusedScoreQ
  rw [hcv]
  cases b.cv_malicious_probability with
  | none => exact h
  | some c =>
    dsimp only
    have hw : (0 : ℚ) ≤ 1 - cvWeight := by norm_num [cvWeight]
    have := mul_le_mul_of_nonneg_left h hw
    linarith

theorem scanRun_chain (evs : List ScanEvent) :
    ∀ st : ScannerState, (∀ t, st.pending = some t → st.lastSent ≠ some t) →
      List.Chain' (· ≠ ·) (st.lastSent.toList ++ (scanRun st evs).2) := by
  induction evs with
  | nil =>
    intro st _
    cases st.lastSent <;> simp [scanRun]
  | cons e evs ih =>
    intro st hinv
    have hrun : (scanRun st (e :: evs)).2 =
        (scanStep st e).2.toList ++ (scanRun (scanStep st e).1 evs).2 := rfl
    cases e with
    | decode t =>
      by_cases hg : some t = st.lastSent
      · have h1 : scanStep st (.decode t) = (st, none) := by simp [scanStep, hg]
        rw [hrun, h1]
        simpa using ih st hinv
      · have h1 : scanStep st (.decode t) = ({ st with pending := some t }, none) := by
          simp [scanStep, hg]
        rw [hrun, h1]
        have hinv1 : ∀ t', ({ st with pending := some t } : ScannerState).pending = some t' →
            ({ st with pending := some t } : ScannerState).lastSent ≠ some t' := by
          intro t' ht'
          simp only at ht' ⊢
          obtain rfl : t = t' := by injection ht'
          exact fun hc => hg hc.symm
        simpa using ih _ hinv1
    | fire =>
      cases hp : st.pending with
      | none =>
        have h1 : scanStep st .fire = (st, none) := by simp [scanStep, hp]
        rw [hrun, h1]
        simpa using ih st hinv
      | some t =>
        have h1 : scanStep st .fire = ({ lastSent := some t, pending := none }, some t) := by
          simp [scanStep, hp]
        rw [hrun, h1]
        have ih' := ih { lastSent := some t, pending := none } (by intro t' h'; simp at h')
        simp only [Option.toList_some, List.singleton_append] at ih'
        cases hl : st.lastSent with
        | none => simpa using ih'
        | some u =>
          have hut : u ≠ t := by
            have hne := hinv t hp
            rw [hl] at hne
            intro hc
            exact hne (by rw [hc])
          simp only [Option.toList_some, List.singleton_append, List.cons_append,
            List.nil_append, List.chain'_cons]
          exact ⟨hut, ih'⟩

theorem guardedWindowOK_true (evs : List ScanEvent) :
    ∀ ls pd lg : Option String, (∀ t, pd = some t → lg = some t) →
      guardedWindowOK ls pd lg evs = true := by
  induction evs with
  | nil => intro ls pd lg _; rfl
  | cons e evs ih =>
    intro ls pd lg hinv
    cases e with
    | decode t =>
      by_cases hg : some t = ls
      · simp only [guardedWindowOK, if_pos hg]
        exact ih ls pd lg hinv
      · simp only [guardedWindowOK, if_neg hg]
        exact ih ls (some t) (some t) (fun t' h' => h')
    | fire =>
      cases pd with
      | none =>
        simp only [guardedWindowOK]
        exact ih ls none lg (fun t' h' => by cases h')
      | some t =>
        have hlg : lg = some t := hinv t rfl
        simp only [guardedWindowOK, hlg, Bool.and_eq_true, decide_eq_true_eq]
        exact ⟨trivial, ih (some t) none (some t) (fun t' h' => by cases h')⟩

/-!
## Claim theorems
-/

/-- C1: for every Signal set, the returned `risk_score` is an integer
between 0 and 100 inclusive, after round-half-up and clamping in the Score
Fusion Engine. -/
theorem fuse_risk_score_bounded (s : Signals) :
    0 ≤ (fuse s).risk_score ∧ (fuse s).risk_score ≤ 100 :=
  riskScore_bounds s

/-- C1 witness: the bounds hold at the all-unknown Signal set. -/
theorem fuse_risk_score_bounded_witness :
    0 ≤ (fuse allUnknownSignals).risk_score ∧ (fuse allUnknownSignals).risk_score ≤ 100 :=
  fuse_risk_score_bounded allUnknownSignals

/-- C2: the risk level is SAFE exactly when the score is at most 39,
SUSPICIOUS exactly when it is between 40 and 69, and DANGEROUS exactly when
it is at least 70; in particular the boundary scores 39, 40, 69 and 70 map
to SAFE, SUSPICIOUS, SUSPICIOUS and DANGEROUS. -/
theorem fuse_risk_level_thresholds (s : Signals) :
    ((fuse s).risk_level = .SAFE ↔ (fuse s).risk_score ≤ 39) ∧
    ((fuse s).risk_level = .SUSPICIOUS ↔ 40 ≤ (fuse s).risk_score ∧ (fuse s).risk_score ≤ 69) ∧
    ((fuse s).risk_level = .DANGEROUS ↔ 70 ≤ (fuse s).risk_score) ∧
    riskLevelOf 39 = .SAFE ∧ riskLevelOf 40 = .SUSPICIOUS ∧
    riskLevelOf 69 = .SUSPICIOUS ∧ riskLevelOf 70 = .DANGEROUS := by
  have h : (fuse s).risk_level = riskLevelOf (fuse s).risk_score := rfl
  refine ⟨?_, ?_, ?_, by norm_num [riskLevelOf], by norm_num [riskLevelOf],
    by norm_num [riskLevelOf], by norm_num [riskLevelOf]⟩ <;>
    rw [h] <;> unfold riskLevelOf <;> split_ifs <;> simp <;> omega

/-- C2 witness: the boundary facts, read off from the theorem applied at the
all-unknown Signal set. -/
theorem fuse_risk_level_thresholds_witness :
    riskLevelOf 39 = .SAFE ∧ riskLevelOf 40 = .SUSPICIOUS ∧
    riskLevelOf 69 = .SUSPICIOUS ∧ riskLevelOf 70 = .DANGEROUS :=
  (fuse_risk_level_thresholds allUnknownSignals).2.2.2

/-- C5: the Score Fusion Engine is deterministic — two Signal sets that agree
on every recorded value (domain age, SSL, keywords, flags, ML probability,
CV probability) fuse to identical results: same score, same level, same
reasons sequence in the same order. -/
theorem fuse_deterministic (s t : Signals)
    (h1 : s.domain_age_days = t.domain_age_days)
    (h2 : s.ssl_valid = t.ssl_valid)
    (h3 : s.suspicious_keywords = t.suspicious_keywords)
    (h4 : s.url_flags = t.url_flags)
    (h5 : s.ml_phishing_probability = t.ml_phishing_probability)
    (h6 : s.cv_malicious_probability = t.cv_malicious_probability) :
    fuse s = fuse t := by
  cases s
  cases t
  simp only at h1 h2 h3 h4 h5 h6
  subst h1 h2 h3 h4 h5 h6
  rfl

/-- C5 witness: determinism at the all-unknown Signal set. -/
theorem fuse_deterministic_witness :
    fuse allUnknownSignals = fuse allUnknownSignals :=
  fuse_deterministic allUnknownSignals allUnknownSignals rfl rfl rfl rfl rfl rfl

/-- C10: after either frontend handler runs, at most one of `result` and
`error` is non-null; any non-OK HTTP status, network failure, or JSON parse
failure leaves `result` null and sets the one fixed could-not-connect
message (the three failure kinds are indistinguishable in the final state);
and `isAnalyzing` is reset to false on every path. -/
theorem analyze_handlers_exclusive (st : PageState) (url : String) (o : FetchOutcome) :
    ¬((analyzeUrl st url o).result.isSome ∧ (analyzeUrl st url o).error.isSome) ∧
    (analyzeUrl st url o).isAnalyzing = false ∧
    ¬((analyzeQr st o).result.isSome ∧ (analyzeQr st o).error.isSome) ∧
    (analyzeQr st o).isAnalyzing = false ∧
    ((∀ d, o ≠ .ok d) →
      (analyzeUrl st url o).result = none ∧
      (analyzeUrl st url o).error = some connectErrorMessage ∧
      (analyzeQr st o).result = none ∧
      (analyzeQr st o).error = some connectErrorMessage) ∧
    analyzeUrl st url .httpError = analyzeUrl st url .networkError ∧
    analyzeUrl st url .networkError = analyzeUrl st url .parseError ∧
    analyzeQr st .httpError = analyzeQr st .networkError ∧
    analyzeQr st .networkError = analyzeQr st .parseError := by
  cases o with
  | ok data =>
    refine ⟨by simp [analyzeUrl], rfl, by simp [analyzeQr], rfl, ?_, rfl, rfl, rfl, rfl⟩
    intro hno
    exact absurd rfl (hno data)
  | httpError =>
    exact ⟨by simp [analyzeUrl], rfl, by simp [analyzeQr], rfl,
      fun _ => ⟨rfl, rfl, rfl, rfl⟩, rfl, rfl, rfl, rfl⟩
  | networkError =>
    exact ⟨by simp [analyzeUrl], rfl, by simp [analyzeQr], rfl,
      fun _ => ⟨rfl, rfl, rfl, rfl⟩, rfl, rfl, rfl, rfl⟩
  | parseError =>
    exact ⟨by simp [analyzeUrl], rfl, by simp [analyzeQr], rfl,
      fun _ => ⟨rfl, rfl, rfl, rfl⟩, rfl, rfl, rfl, rfl⟩

/-- C3: when a CV probability `c` is available the final score is the
round-and-clamp of `(1 - cv_weight) * url_score + cv_weight * (c * 100)`
with `cv_weight` the fixed constant 0.35; when the Visual Provider is
unavailable the final score is the round-and-clamp of `url_score` alone.
The last two conjuncts show on a concrete Signal set that the absent CV term
is excluded rather than substituted with zero: exclusion yields 75 while
zero-substitution would yield 49. -/
theorem fuse_cv_blend (s : Signals) :
    (∀ c : ℚ, s.cv_malicious_probability = some c →
      (fuse s).risk_score =
        clampScore (roundHalfUp ((1 - cvWeight) * urlScore s + cvWeight * (c * 100)))) ∧
    (s.cv_malicious_probability = none →
      (fuse s).risk_score = clampScore (roundHalfUp (urlScore s))) ∧
    riskScore cvAbsentExample = 75 ∧
    clampScore (roundHalfUp ((1 - cvWeight) * urlScore cvAbsentExample + cvWeight * 0)) = 49 := by
  have hurl : urlScore cvAbsentExample = 75 := by
    norm_num [urlScore, mlContribution, keywordContribution, sslContribution, ageContribution,
      hitCount, cvAbsentExample, mlMaxPoints, keywordIncrement, keywordCap, sslInvalidPoints,
      agePoints, youngAgeDays]
  refine ⟨?_, ?_, ?_, ?_⟩
  · intro c h
    show riskScore s = _
    unfold riskScore fusedScoreQ
    rw [h]
  · intro h
    show riskScore s = _
    unfold riskScore fusedScoreQ
    rw [h]
  · have hq : fusedScoreQ cvAbsentExample = urlScore cvAbsentExample := rfl
    unfold riskScore
    rw [hq, hurl]
    norm_num [roundHalfUp, clampScore, Int.floor_eq_iff]
  · rw [hurl]
    norm_num [roundHalfUp, clampScore, cvWeight, Int.floor_eq_iff]

/-- C3 witness: the blend equation instantiated at the concrete Signal set
with CV probability 1. -/
theorem fuse_cv_blend_witness :
    (fuse cvPresentExample).risk_score =
      clampScore (roundHalfUp ((1 - cvWeight) * urlScore cvPresentExample + cvWeight * (1 * 100))) :=
  (fuse_cv_blend cvPresentExample).1 1 rfl

/-- C4: holding all other signals fixed, a larger ML probability never
lowers the risk score; adding one suspicious keyword never lowers the risk
score; and a confirmed-invalid SSL certificate never scores below an
unknown SSL state. -/
theorem fuse_monotone :
    (∀ (s : Signals) (p₁ p₂ : ℚ), p₁ ≤ p₂ →
      riskScore { s with ml_phishing_probability := some p₁ } ≤
        riskScore { s with ml_phishing_probability := some p₂ }) ∧
    (∀ (s : Signals) (k : String),
      riskScore s ≤ riskScore { s with suspicious_keywords := k :: s.suspicious_keywords }) ∧
    (∀ s : Signals,
      riskScore { s with ssl_valid := none } ≤ riskScore { s with ssl_valid := some false }) := by
  refine ⟨?_, ?_, ?_⟩
  · intro s p₁ p₂ h
    apply riskScore_mono
    apply fusedScoreQ_mono_url
    · rfl
    have e : ∀ p : ℚ, urlScore { s with ml_phishing_probability := some p } =
        p * mlMaxPoints + keywordContribution s + sslContribution s + ageContribution s :=
      fun _ => rfl
    rw [e p₁, e p₂]
    have := mul_le_mul_of_nonneg_right h (show (0 : ℚ) ≤ mlMaxPoints by norm_num [mlMaxPoints])
    linarith
  · intro s k
    apply riskScore_mono
    apply fusedScoreQ_mono_url
    · rfl
    have hcount : hitCount { s with suspicious_keywords := k :: s.suspicious_keywords } =
        hitCount s + 1 := by
      simp only [hitCount, List.length_cons]
      omega
    have hk : keywordContribution s ≤
        keywordContribution { s with suspicious_keywords := k :: s.suspicious_keywords } := by
      unfold keywordContribution
      rw [hcount]
      refine min_le_min ?_ le_rfl
      have : (0 : ℚ) ≤ keywordIncrement := by norm_num [keywordIncrement]
      push_cast
      nlinarith
    have e1 : urlScore { s with suspicious_keywords := k :: s.suspicious_keywords } =
        mlContribution s +
          keywordContribution { s with suspicious_keywords := k :: s.suspicious_keywords } +
          sslContribution s + ageContribution s := rfl
    have e2 : urlScore s =
        mlContribution s + keywordContribution s + sslContribution s + ageContribution s := rfl
    rw [e1, e2]
    linarith
  · intro s
    apply riskScore_mono
    apply fusedScoreQ_mono_url
    · rfl
    have e1 : urlScore { s with ssl_valid := none } =
        mlContribution s + keywordContribution s + sslUnknownPoints + ageContribution s := rfl
    have e2 : urlScore { s with ssl_valid := some false } =
        mlContribution s + keywordContribution s + sslInvalidPoints + ageContribution s := rfl
    rw [e1, e2]
    have : sslUnknownPoints ≤ sslInvalidPoints := by
      norm_num [sslUnknownPoints, sslInvalidPoints]
    linarith

/-- C4 witness: the ML-monotonicity conjunct at the all-unknown Signal set
with probabilities 0 and 1. -/
theorem fuse_monotone_witness :
    riskScore { allUnknownSignals with ml_phishing_probability := some 0 } ≤
      riskScore { allUnknownSignals with ml_phishing_probability := some 1 } :=
  fuse_monotone.1 allUnknownSignals 0 1 (by decide)

/-- C7: fusion is a total function over the Signal set — every Signal set,
including the all-unknown one, yields a well-bounded result — and the
all-unknown Signal set yields the low-confidence mid-range score 35
(neither 0 nor in the DANGEROUS band), not a failure. -/
theorem fuse_total_all_unknown :
    (∀ s : Signals, ∃ r : AnalysisResult,
      fuse s = r ∧ 0 ≤ r.risk_score ∧ r.risk_score ≤ 100) ∧
    (fuse allUnknownSignals).risk_score = 35 ∧
    20 ≤ (fuse allUnknownSignals).risk_score ∧
    (fuse allUnknownSignals).risk_score ≤ 60 ∧
    (fuse allUnknownSignals).risk_level ≠ .DANGEROUS := by
  have hurl : urlScore allUnknownSignals = 35 := by
    norm_num [urlScore, mlContribution, keywordContribution, sslContribution, ageContribution,
      hitCount, allUnknownSignals, mlUnknownPoints, keywordIncrement, keywordCap,
      sslUnknownPoints, ageUnknownPoints]
  have hscore : riskScore allUnknownSignals = 35 := by
    have hq : fusedScoreQ allUnknownSignals = urlScore allUnknownSignals := rfl
    unfold riskScore
    rw [hq, hurl]
    norm_num [roundHalfUp, clampScore, Int.floor_eq_iff]
  refine ⟨fun s => ⟨fuse s, rfl, riskScore_bounds s⟩, hscore, ?_, ?_, ?_⟩
  · show (20 : ℤ) ≤ riskScore allUnknownSignals
    omega
  · show riskScore allUnknownSignals ≤ 60
    omega
  · show riskLevelOf (riskScore allUnknownSignals) ≠ .DANGEROUS
    rw [hscore]
    norm_num [riskLevelOf]
    decide

/-- C7 witness: the totality conjunct instantiated at the all-unknown
Signal set. -/
theorem fuse_total_all_unknown_witness :
    ∃ r : AnalysisResult,
      fuse allUnknownSignals = r ∧ 0 ≤ r.risk_score ∧ r.risk_score ≤ 100 :=
  fuse_total_all_unknown.1 allUnknownSignals

/-- C10 witness: a failed URL analysis from the quiescent page state leaves
`result` null and sets the fixed error message. -/
theorem analyze_handlers_exclusive_witness :
    (analyzeUrl pageState0 "https://example.com" .httpError).result = none ∧
    (analyzeUrl pageState0 "https://example.com" .httpError).error = some connectErrorMessage ∧
    (analyzeQr pageState0 .httpError).result = none ∧
    (analyzeQr pageState0 .httpError).error = some connectErrorMessage :=
  (analyze_handlers_exclusive pageState0 "https://example.com" .httpError).2.2.2.2.1
    (fun _ h => FetchOutcome.noConfusion h)

/-- C6 counterexample: downstream of the validator, the legacy `ResultsCard`
variant (src/unnamed/part_000 lines 262–267, fed by the `Index` page whose
`AnalysisResult` interface types `ssl_valid` as plain `boolean`) renders an
unknown SSL state (`null`) exactly like an explicit invalid certificate
(`false`) — both as value "Invalid" with status "bad" — so the null state is
conflated with false in the exposed SSL rendering, contradicting the claim's
"everywhere downstream" part. -/
theorem legacy_ssl_conflation :
    legacySslDisplayValue none = legacySslDisplayValue (some false) ∧
    legacySslDisplayStatus none = legacySslDisplayStatus (some false) ∧
    legacySslDisplayValue none = "Invalid" ∧
    legacySslDisplayStatus none = "bad" :=
  ⟨rfl, rfl, rfl, rfl⟩

/-- C6 amended: the Certificate Validator returns false only on an explicit
validation failure (a completed handshake with a failed chain, expiry or
hostname check) and null on connection failure, timeout, or a non-HTTPS
scheme; scoring, reasons, the current `ResultsCard` rendering and the
exposed `ssl_valid` response field keep null distinct from false — but the
legacy `ResultsCard` variant conflates them (see the counterexample). -/
theorem validate_null_distinct :
    (∀ t e h : Bool, validate (.handshake t e h) = some false ↔
      ¬(t = true ∧ e = true ∧ h = true)) ∧
    validate .connectionFailure = none ∧
    validate .timeout = none ∧
    validate .nonHttpsScheme = none ∧
    (∀ o : TlsOutcome, validate o = some false →
      ∃ t e h : Bool, o = .handshake t e h) ∧
    (∀ s : Signals, sslContribution { s with ssl_valid := some false } ≠
      sslContribution { s with ssl_valid := none }) ∧
    (∀ s s' : Signals, s.ssl_valid = some false → s'.ssl_valid = none →
      sentence s .ssl ≠ sentence s' .ssl) ∧
    sslDisplayValue none ≠ sslDisplayValue (some false) ∧
    sslDisplayStatus none ≠ sslDisplayStatus (some false) ∧
    (∀ s : Signals, (fuse s).ssl_valid = s.ssl_valid) := by
  refine ⟨?_, rfl, rfl, rfl, ?_, ?_, ?_, ?_, ?_, fun _ => rfl⟩
  · intro t e h
    cases t <;> cases e <;> cases h <;> simp [validate]
  · intro o h
    cases o with
    | handshake t e h' => exact ⟨t, e, h', rfl⟩
    | connectionFailure => cases h
    | timeout => cases h
    | nonHttpsScheme => cases h
  · intro s
    show sslInvalidPoints ≠ sslUnknownPoints
    norm_num [sslInvalidPoints, sslUnknownPoints]
  · intro s s' hs hs'
    simp only [sentence, hs, hs']
    decide
  · decide
  · decide

/-- C6 witness: a handshake with an untrusted chain is an explicit
validation failure. -/
theorem validate_null_distinct_witness :
    ∃ t e h : Bool, (TlsOutcome.handshake false true true) = .handshake t e h :=
  validate_null_distinct.2.2.2.2.1 (.handshake false true true) (by decide)

/-- C8: the reasons sequence is the rendering of one entry per signal
category with a non-zero point contribution, sorted by absolute point
contribution descending with ties broken by the fixed category priority
ML > CV > keywords/flags > SSL > domain age; categories appear at most once
and each entry carries its category's absolute contribution and sentence. -/
theorem fuse_reasons_sorted (s : Signals) :
    (fuse s).reasons = List.map ReasonEntry.text (sortedReasonEntries s) ∧
    List.Sorted reasonLE (sortedReasonEntries s) ∧
    (sortedReasonEntries s).Perm (reasonEntries s) ∧
    (∀ c : SignalCategory,
      (∃ e ∈ sortedReasonEntries s, e.cat = c) ↔ contribution s c ≠ 0) ∧
    (List.map ReasonEntry.cat (sortedReasonEntries s)).Nodup ∧
    (∀ e ∈ sortedReasonEntries s, e.points = |contribution s e.cat| ∧
      e.text = sentence s e.cat) := by
  refine ⟨rfl, List.sorted_insertionSort _ _, List.perm_insertionSort _ _, ?_, ?_, ?_⟩
  · intro c
    constructor
    · rintro ⟨e, he, hcat⟩
      simp only [sortedReasonEntries, List.mem_insertionSort, reasonEntries] at he
      obtain ⟨c', hc', rfl⟩ := List.mem_map.mp he
      rw [List.mem_filter] at hc'
      have hnz := hc'.2
      rw [decide_eq_true_eq] at hnz
      cases hcat
      exact hnz
    · intro hc
      refine ⟨⟨c, |contribution s c|, sentence s c⟩, ?_, rfl⟩
      simp only [sortedReasonEntries, List.mem_insertionSort, reasonEntries]
      refine List.mem_map.mpr ⟨c, ?_, rfl⟩
      rw [List.mem_filter]
      refine ⟨by cases c <;> simp [allCategories], ?_⟩
      rw [decide_eq_true_eq]
      exact hc
  · have hmap : List.map ReasonEntry.cat (reasonEntries s) =
        allCategories.filter fun c => decide (contribution s c ≠ 0) := by
      simp only [reasonEntries, List.map_map]
      exact List.map_id _
    have hperm : (List.map ReasonEntry.cat (sortedReasonEntries s)).Perm
        (List.map ReasonEntry.cat (reasonEntries s)) :=
      (List.perm_insertionSort _ _).map _
    rw [hmap] at hperm
    exact hperm.nodup_iff.mpr (List.Nodup.filter _ (by decide))
  · intro e he
    simp only [sortedReasonEntries, List.mem_insertionSort, reasonEntries] at he
    obtain ⟨c', _, rfl⟩ := List.mem_map.mp he
    exact ⟨rfl, rfl⟩

/-- C8 witness: at the all-unknown Signal set the SSL category has non-zero
contribution, so some sorted reason entry carries it. -/
theorem fuse_reasons_sorted_witness :
    ∃ e ∈ sortedReasonEntries allUnknownSignals, e.cat = .ssl :=
  ((fuse_reasons_sorted allUnknownSignals).2.2.2.1 .ssl).mpr
    (by simp [contribution, sslContribution, allUnknownSignals, sslUnknownPoints])

/-- C9 counterexample: the literal reading "a changed decoded URL is
dispatched only after a debounce window with no newer decode" fails: on the
decode trace a, (fire), b, a, (fire) the second dispatch sends "b" although
the most recent decode before it was "a" (a re-decode of the already-sent
URL, which the handler ignores without cancelling the pending timer), so the
strict window check is violated while two requests are in fact sent. -/
theorem scanner_strict_window_fails :
    strictWindowOK none none none
      [.decode "a", .fire, .decode "b", .decode "a", .fire] = false ∧
    scanRequests [.decode "a", .fire, .decode "b", .decode "a", .fire] = ["a", "b"] := by
  constructor
  · rfl
  · rfl

/-- C9 amended: a decoded text equal to the most recently sent URL is
ignored entirely (no request, no state change); every dispatch carries the
text of the most recent decode whose text differed from the then-current
last-sent URL (the debounce window is reset by every such decode, while
decodes equal to the last sent URL neither dispatch nor reset it); and over
every event trace the dispatched requests never repeat consecutively — at
most one request per distinct consecutive URL. -/
theorem scanner_debounce_dedup :
    (∀ (st : ScannerState) (t : String), some t = st.lastSent →
      scanStep st (.decode t) = (st, none)) ∧
    (∀ evs : List ScanEvent, List.Chain' (· ≠ ·) (scanRequests evs)) ∧
    (∀ evs : List ScanEvent, guardedWindowOK none none none evs = true) := by
  refine ⟨?_, ?_, ?_⟩
  · intro st t h
    simp [scanStep, h]
  · intro evs
    have h := scanRun_chain evs initialScannerState
      (by intro t h; simp [initialScannerState] at h)
    simpa [scanRequests, initialScannerState] using h
  · exact fun evs => guardedWindowOK_true evs none none none (fun t h => by cases h)

/-- C9 witness: a re-decode of the already-sent URL "a" is a no-op. -/
theorem scanner_debounce_dedup_witness :
    scanStep { lastSent := some "a", pending := none } (.decode "a") =
      ({ lastSent := some "a", pending := none }, none) :=
  scanner_debounce_dedup.1 { lastSent := some "a", pending := none } "a" rfl

end QRPhish
